import Mathlib

/-
  Verification development for the mcp-server-multagente-sap repository.

  The definitions below are a shallow embedding of the TypeScript sources:
    - src/agents/base.ts            (BaseAgent.calculateConfidence)
    - src/agents/orchestrator.ts    (AgentOrchestrator)
    - src/commands/processor.ts     (CommandProcessor)
    - src/database/service.ts       (DatabaseService, modelled as a pure store)
    - src/utils/context.ts          (ContextManager)

  JavaScript numbers are modelled as rationals; the store (Supabase tables)
  is modelled as in-memory lists of rows kept in insertion order, with a
  strictly increasing clock standing in for timestamps, so that
  ORDER BY saved_at DESC / created_at DESC coincides with reverse insertion
  order.  Free-text payload fields that no control flow inspects
  (open_files, session_data, code_snippet, test_scenarios, ...) are omitted.
-/

-- =====================================================
-- ConfidenceScorer: BaseAgent.calculateConfidence (src/agents/base.ts)
-- =====================================================

/-- Math.round(x * 100) / 100, rounding to 2 decimal places, on rationals.
round in Mathlib is floor (x + 1/2), which agrees with Math.round for the
nonnegative values produced here. -/
def roundTo2 (x : ℚ) : ℚ := ((round (x * 100) : ℤ) : ℚ) / 100

/-- Translation of BaseAgent.calculateConfidence (src/agents/base.ts lines 43-61).
baseConfidence = (familiarity + dataQuality) / 2; penalties
(complexity - 1) * 0.1 and (riskLevel - 1) * 0.15; clamp with
Math.max(0.1, Math.min(1.0, ...)); then Math.round(x * 100) / 100. -/
def calculateConfidence (complexity familiarity riskLevel dataQuality : ℚ) : ℚ :=
  let baseConfidence := (familiarity + dataQuality) / 2
  let complexityPenalty := (complexity - 1) * (1 / 10)
  let riskPenalty := (riskLevel - 1) * (15 / 100)
  let confidence := max (1 / 10) (min 1 (baseConfidence / 5 - complexityPenalty - riskPenalty))
  roundTo2 confidence

/-- Modelled from the spec wording of section 4.2 for the refinement claim C7:
base = (familiarity + dataQuality) / 2; raw = base / 5 - (complexity - 1) * 0.10
- (riskLevel - 1) * 0.15; clamp raw to the interval from 0.10 to 1.00; round to
2 decimal places. -/
def confidenceSpec (complexity familiarity riskLevel dataQuality : ℚ) : ℚ :=
  roundTo2 (max (1 / 10) (min 1
    (((familiarity + dataQuality) / 2) / 5
      - (complexity - 1) * (1 / 10) - (riskLevel - 1) * (15 / 100))))

-- =====================================================
-- AgentOrchestrator (src/agents/orchestrator.ts)
-- =====================================================

/-- The six evaluator kinds (AgentType in src/types/index.ts). -/
inductive AgentType where
  | architect
  | developer
  | dba
  | qa
  | business
  | po
deriving Repr, DecidableEq

def agentLabel : AgentType → String
  | .architect => "architect"
  | .developer => "developer"
  | .dba => "dba"
  | .qa => "qa"
  | .business => "business"
  | .po => "po"

/-- AgentResponse (src/types/index.ts); confidence is a JS number, modelled
as a rational. -/
structure AgentResponse where
  agent : AgentType
  response : String
  confidence : ℚ
  suggestions : List String
deriving Repr, DecidableEq

/-- Registry insertion order from AgentOrchestrator.initializeAgents: the Map
iterates in insertion order. -/
def orchestratorAgents : List AgentType :=
  [.architect, .developer, .dba, .qa, .business, .po]

/-- The fixed degraded response substituted in the catch branches of
analyzeWithAllAgents and analyzeWithSpecificAgents. -/
def degradedResponse (t : AgentType) : AgentResponse :=
  { agent := t
    response := "❌ Erro na análise do agente " ++ agentLabel t
    confidence := 1 / 10
    suggestions := ["Revisar manualmente"] }

/-- One evaluator invocation with its try/catch wrapper.  A throwing
analyze call is modelled as Except.error carrying the thrown message. -/
def runAgent (analyze : AgentType → Except String AgentResponse)
    (t : AgentType) : AgentResponse :=
  match analyze t with
  | .ok r => r
  | .error _ => degradedResponse t

/-- The fixed urgency vocabulary priorityKeywords of generateRecommendations. -/
def priorityKeywords : List String := ["crítico", "urgente", "atenção", "impacto"]

/-- Substring containment on character lists (String.prototype.includes). -/
def strContainsSub (needle : List Char) : List Char → Bool
  | [] => needle.isEmpty
  | c :: rest => needle.isPrefixOf (c :: rest) || strContainsSub needle rest

/-- ASCII lowering of one character (the a-to-z fragment of toLowerCase). -/
def charToLower (c : Char) : Char :=
  if 65 ≤ c.toNat ∧ c.toNat ≤ 90 then Char.ofNat (c.toNat + 32) else c

/-- a.toLowerCase().includes(keyword) for some urgency keyword.  Lowering is
applied per character; it covers ASCII letters while JS lowers accented
capitals too, a difference visible only on inputs containing capital accented
letters, which no claim depends on. -/
def isUrgentSuggestion (s : String) : Bool :=
  priorityKeywords.any (fun k => strContainsSub k.toList (s.toList.map charToLower))

/-- First-occurrence de-duplication: Array.from(new Set(xs)) keeps the first
occurrence of each element, in order.  The seen accumulator holds elements
already emitted. -/
def dedupFirstAux (seen : List String) : List String → List String
  | [] => []
  | a :: l =>
      if a ∈ seen then dedupFirstAux seen l
      else a :: dedupFirstAux (a :: seen) l

def dedupFirst (l : List String) : List String := dedupFirstAux [] l

/-- Translation of AgentOrchestrator.generateRecommendations (lines 634-662):
collect every suggestion list, de-duplicate via a Set, sort with the
comparator (a, b) => bPriority - aPriority, take the first 10.
Array.prototype.sort is stable (ES2019); with this two-valued comparator a
stable sort is exactly the stable partition placing urgency-keyword
suggestions first, which is how the sort is rendered here. -/
def generateRecommendations (responses : List AgentResponse) : List String :=
  let allSuggestions := responses.flatMap (fun r => r.suggestions)
  let uniqueSuggestions := dedupFirst allSuggestions
  let prioritizedSuggestions :=
    uniqueSuggestions.filter (fun s => isUrgentSuggestion s)
      ++ uniqueSuggestions.filter (fun s => !isUrgentSuggestion s)
  prioritizedSuggestions.take 10

/-- The orchestration result.  The summary text and the consensus map (which
only reformat response texts) are not referred to by any claim and are left
out of the model. -/
structure MultiAgentAnalysis where
  responses : List AgentResponse
  recommendations : List String
deriving Repr, DecidableEq

/-- Translation of AgentOrchestrator.analyzeWithAllAgents (lines 468-520):
every registered agent is invoked, each inside its own try/catch that
substitutes the degraded response, and Promise.all preserves the registry
order. -/
def analyzeWithAllAgents (analyze : AgentType → Except String AgentResponse) :
    MultiAgentAnalysis :=
  let responses := orchestratorAgents.map (runAgent analyze)
  { responses := responses
    recommendations := generateRecommendations responses }

/-- Translation of AgentOrchestrator.analyzeWithSpecificAgents (lines
522-568): for each requested type, if the registry holds it, invoke it under
try/catch and push the (possibly degraded) response; unknown types are
silently skipped. -/
def analyzeWithSpecificAgents (analyze : AgentType → Except String AgentResponse)
    (agentTypes : List AgentType) : MultiAgentAnalysis :=
  let responses := agentTypes.filterMap (fun t =>
    if t ∈ orchestratorAgents then some (runAgent analyze t) else none)
  { responses := responses
    recommendations := generateRecommendations responses }

-- =====================================================
-- Data model: statuses and rows (src/types/index.ts)
-- =====================================================

inductive TaskStatus where
  | pending
  | in_progress
  | completed
  | failed
  | skipped
deriving Repr, DecidableEq

inductive TodoStatus where
  | pending
  | in_progress
  | completed
  | cancelled
  | blocked
deriving Repr, DecidableEq

/-- A context_stack row (ContextStack in src/types/index.ts).  Timestamps are
clock values; payload fields never inspected by control flow (file_path,
open_files, session_data, ...) are omitted. -/
structure ContextRow where
  id : Nat
  project_id : String
  todo_id : Option String
  task_id : Option Nat
  next_action : Option String
  notes : Option String
  is_active : Bool
  stack_depth : Nat
  parent_context_id : Option Nat
  saved_at : Nat
  resumed_at : Option Nat
deriving Repr, DecidableEq

/-- ContextData (src/utils/context.ts), the argument of
ContextManager.saveContext. -/
structure ContextData where
  project_id : String
  todo_id : Option String := none
  task_id : Option Nat := none
  next_action : Option String := none
  notes : Option String := none
  stack_depth : Option Nat := none
  parent_context_id : Option Nat := none
deriving Repr, DecidableEq

/-- The all-optional form of ContextData taken by ContextManager.pushContext;
a present field overrides the computed one because the object spread puts the
patch last. -/
structure CtxPatch where
  project_id : Option String := none
  todo_id : Option String := none
  task_id : Option Nat := none
  next_action : Option String := none
  notes : Option String := none
  stack_depth : Option Nat := none
  parent_context_id : Option Nat := none
deriving Repr, DecidableEq

/-- A tasks row (Task in src/types/index.ts); generated-text payload fields
(code_snippet, test_scenarios, corrections_applied, ...) are omitted. -/
structure TaskRow where
  id : Nat
  todo_id : String
  sequence_number : Nat
  title : String
  owner_agent : AgentType
  status : TaskStatus
  dependencies : List Nat
  error_count : Nat
  last_error : Option String
  started_at : Option Nat
  completed_at : Option Nat
  confirmed_by : Option String
  confirmed_at : Option Nat
  execution_time_seconds : Option Nat
deriving Repr, DecidableEq

/-- A todos row (Todo in src/types/index.ts), restricted to the fields the
workflow engine reads or writes. -/
structure TodoRow where
  id : String
  project_id : String
  status : TodoStatus
  progress_percentage : Int
  current_task_index : Nat
  completed_at : Option Nat
  created_at : Nat
deriving Repr, DecidableEq

/-- The whole mutable state: the three store tables (rows kept in insertion
order, timestamps strictly increasing with clock), the ContextManager
per-project cache (a Map in insertion order), and the id counter the store
uses for context_stack rows. -/
structure World where
  contexts : List ContextRow
  nextContextId : Nat
  cache : List (String × List ContextRow)
  todos : List TodoRow
  tasks : List TaskRow
  clock : Nat
deriving Repr, DecidableEq

def emptyWorld : World :=
  { contexts := [], nextContextId := 1, cache := [], todos := [], tasks := [], clock := 0 }

-- =====================================================
-- ContextManager cache helpers (the Map<string, ContextStack[]>)
-- =====================================================

def cacheGet (cache : List (String × List ContextRow)) (p : String) : List ContextRow :=
  match cache.find? (fun e => e.1 == p) with
  | some e => e.2
  | none => []

def cacheSet (cache : List (String × List ContextRow)) (p : String)
    (l : List ContextRow) : List (String × List ContextRow) :=
  if (cache.find? (fun e => e.1 == p)).isSome then
    cache.map (fun e => if e.1 == p then (p, l) else e)
  else cache ++ [(p, l)]

/-- findIndex / replace-or-push on a cached context list, used by
getActiveContext and updateContextCache. -/
def upsertById (ctx : ContextRow) : List ContextRow → List ContextRow
  | [] => [ctx]
  | c :: l => if c.id == ctx.id then ctx :: l else c :: upsertById ctx l

-- =====================================================
-- DatabaseService, context_stack operations (src/database/service.ts)
-- =====================================================

/-- The Insert shape Omit ContextStack id saved_at. -/
structure ContextInsert where
  project_id : String
  todo_id : Option String
  task_id : Option Nat
  next_action : Option String
  notes : Option String
  is_active : Bool
  stack_depth : Nat
  parent_context_id : Option Nat
deriving Repr, DecidableEq

/-- DatabaseService.saveContext (lines 431-451): first set is_active = false
on every row of the project, then insert the new row with is_active forced to
true; id and saved_at are assigned by the store. -/
def dbSaveContext (w : World) (ins : ContextInsert) : World × ContextRow :=
  let deactivated := w.contexts.map (fun c =>
    if c.project_id == ins.project_id then { c with is_active := false } else c)
  let row : ContextRow :=
    { id := w.nextContextId
      project_id := ins.project_id
      todo_id := ins.todo_id
      task_id := ins.task_id
      next_action := ins.next_action
      notes := ins.notes
      is_active := true
      stack_depth := ins.stack_depth
      parent_context_id := ins.parent_context_id
      saved_at := w.clock
      resumed_at := none }
  ({ w with contexts := deactivated ++ [row]
            nextContextId := w.nextContextId + 1
            clock := w.clock + 1 }, row)

/-- DatabaseService.getActiveContext: the project row with is_active = true,
ORDER BY saved_at DESC LIMIT 1.  Rows sit in saved_at order, so the last
match is the newest. -/
def dbGetActiveContext (w : World) (p : String) : Option ContextRow :=
  (w.contexts.filter (fun c => c.project_id == p && c.is_active)).getLast?

def dbGetContext (w : World) (cid : Nat) : Option ContextRow :=
  w.contexts.find? (fun c => c.id == cid)

/-- DatabaseService.updateContext: partial update of one row; each call site
passes its concrete field updates. -/
def dbUpdateContext (w : World) (cid : Nat) (upd : ContextRow → ContextRow) : World :=
  { w with contexts := w.contexts.map (fun c => if c.id == cid then upd c else c) }

/-- DatabaseService.getContextHistory: the project rows ORDER BY saved_at
DESC, LIMIT n. -/
def dbGetContextHistory (w : World) (p : String) (limit : Nat) : List ContextRow :=
  ((w.contexts.filter (fun c => c.project_id == p)).reverse).take limit

-- =====================================================
-- ContextManager (src/utils/context.ts)
-- =====================================================

/-- ContextManager.saveContext (lines 36-71): build the insert record
(stack_depth defaulting to 0), persist it through the store, then append the
returned row to the per-project cache list; the rows already cached are not
touched, so their is_active snapshots go stale when the store deactivates
them. -/
def cmSaveContext (w : World) (data : ContextData) : World × ContextRow :=
  let ins : ContextInsert :=
    { project_id := data.project_id
      todo_id := data.todo_id
      task_id := data.task_id
      next_action := data.next_action
      notes := data.notes
      is_active := true
      stack_depth := data.stack_depth.getD 0
      parent_context_id := data.parent_context_id }
  let r := dbSaveContext w ins
  let w1 := r.1
  let ctx := r.2
  let projectContexts := cacheGet w1.cache data.project_id
  ({ w1 with cache := cacheSet w1.cache data.project_id (projectContexts ++ [ctx]) }, ctx)

/-- ContextManager.getActiveContext (lines 73-107): return the first cached
row whose is_active snapshot is set; on a miss fall back to the store and
cache the fetched row (replacing the entry with the same id, else
appending). -/
def cmGetActiveContext (w : World) (p : String) : World × Option ContextRow :=
  match (cacheGet w.cache p).find? (fun c => c.is_active) with
  | some active => (w, some active)
  | none =>
    match dbGetActiveContext w p with
    | some ctx =>
        ({ w with cache := cacheSet w.cache p (upsertById ctx (cacheGet w.cache p)) },
          some ctx)
    | none => (w, none)

/-- ContextManager.updateContextCache (lines 238-249). -/
def cmUpdateContextCache (w : World) (p : String) (ctx : ContextRow) : World :=
  { w with cache := cacheSet w.cache p (upsertById ctx (cacheGet w.cache p)) }

/-- ContextManager.pushContext (lines 109-127): depth and parent come from
the current active context as served by getActiveContext; the caller patch is
spread last, so its present fields win. -/
def cmPushContext (w : World) (projectId : String) (data : CtxPatch) :
    World × ContextRow :=
  let r := cmGetActiveContext w projectId
  let w1 := r.1
  let currentContext := r.2
  let stackDepth := match currentContext with
    | some c => c.stack_depth + 1
    | none => 0
  let newContextData : ContextData :=
    { project_id := data.project_id.getD projectId
      todo_id := data.todo_id
      task_id := data.task_id
      next_action := data.next_action
      notes := data.notes
      stack_depth := some (data.stack_depth.getD stackDepth)
      parent_context_id :=
        match data.parent_context_id with
        | some pid => some pid
        | none => currentContext.map (fun c => c.id) }
  cmSaveContext w1 newContextData

/-- ContextManager.popContext (lines 129-161): read the current active
context through the cache, require a parent id, deactivate the current row,
fetch the parent row and reactivate it setting resumed_at, refresh the cache
with the fetched (pre-update) parent object, and return that object. -/
def cmPopContext (w : World) (projectId : String) : World × Option ContextRow :=
  let r := cmGetActiveContext w projectId
  let w1 := r.1
  match r.2 with
  | none => (w1, none)
  | some cur =>
    match cur.parent_context_id with
    | none => (w1, none)
    | some parentId =>
      let w2 := dbUpdateContext w1 cur.id (fun c => { c with is_active := false })
      match dbGetContext w2 parentId with
      | some parentContext =>
          let w3 := dbUpdateContext w2 parentContext.id (fun c =>
            { c with is_active := true, resumed_at := some w2.clock })
          (cmUpdateContextCache w3 projectId parentContext, some parentContext)
      | none => (w2, none)

/-- ContextManager.getContextHistory (lines 185-198): fetch the newest limit
rows and overwrite the cache for the project with them. -/
def cmGetContextHistory (w : World) (projectId : String) (limit : Nat) :
    World × List ContextRow :=
  let contexts := dbGetContextHistory w projectId limit
  ({ w with cache := cacheSet w.cache projectId contexts }, contexts)

-- =====================================================
-- DatabaseService, todos and tasks operations
-- =====================================================

/-- Stable insertion by sequence number, rendering ORDER BY sequence_number
ASC. -/
def sortBySeqInsert (t : TaskRow) : List TaskRow → List TaskRow
  | [] => [t]
  | a :: l =>
      if t.sequence_number < a.sequence_number then t :: a :: l
      else a :: sortBySeqInsert t l

def sortBySeq (l : List TaskRow) : List TaskRow :=
  l.foldl (fun acc t => sortBySeqInsert t acc) []

def dbListTasks (w : World) (todoId : String) : List TaskRow :=
  sortBySeq (w.tasks.filter (fun t => t.todo_id == todoId))

def dbGetTask (w : World) (tid : Nat) : Option TaskRow :=
  w.tasks.find? (fun t => t.id == tid)

def dbUpdateTask (w : World) (tid : Nat) (upd : TaskRow → TaskRow) : World :=
  { w with tasks := w.tasks.map (fun t => if t.id == tid then upd t else t) }

def dbGetTodo (w : World) (id : String) : Option TodoRow :=
  w.todos.find? (fun t => t.id == id)

def dbUpdateTodo (w : World) (id : String) (upd : TodoRow → TodoRow) : World :=
  { w with todos := w.todos.map (fun t => if t.id == id then upd t else t) }

/-- DatabaseService.getActiveTodo: project todos with status in_progress,
ORDER BY created_at DESC LIMIT 1 (rows sit in created_at order). -/
def dbGetActiveTodo (w : World) (p : String) : Option TodoRow :=
  (w.todos.filter (fun t =>
    t.project_id == p && t.status == TodoStatus.in_progress)).getLast?

/-- DatabaseService.getNextTask: the first pending task of the todo with a
larger sequence number (ORDER BY sequence_number ASC LIMIT 1). -/
def dbGetNextTask (w : World) (todoId : String) (currentSequence : Nat) :
    Option TaskRow :=
  (sortBySeq (w.tasks.filter (fun t =>
    t.todo_id == todoId && t.status == TaskStatus.pending
      && currentSequence < t.sequence_number))).head?

-- =====================================================
-- CommandProcessor (src/commands/processor.ts)
-- =====================================================

/-- The discriminated result every command returns (CommandResult in
src/types/index.ts); the data payload is not modelled. -/
structure CommandResult where
  success : Bool
  message : String
  error : Option String := none
deriving Repr, DecidableEq

/-- CommandProcessor.checkTaskDependencies (lines 803-814): each entry of
task.dependencies is looked up with DatabaseService.getTask, that is, as a
store-wide task id; entries whose looked-up task is missing or not completed
are collected. -/
def checkTaskDependencies (w : World) (task : TaskRow) : List Nat :=
  task.dependencies.filter (fun depId =>
    match dbGetTask w depId with
    | none => true
    | some depTask => !(depTask.status == TaskStatus.completed))

/-- CommandProcessor.executeTask (lines 816-852): mark the task in_progress
with started_at; the follow-up update stores the generated snippet text (not
modelled) and execution_time_seconds = 1.  No further status change. -/
def executeTask (w : World) (task : TaskRow) : World :=
  let w1 := dbUpdateTask w task.id (fun t =>
    { t with status := TaskStatus.in_progress, started_at := some w.clock })
  dbUpdateTask w1 task.id (fun t => { t with execution_time_seconds := some 1 })

/-- Math.round((completed / total) * 100); on rationals, with total = 0 the
quotient is 0 (the code never reaches that case: the target task was found in
the list). -/
def progressRound (completed total : Nat) : Int :=
  round (((completed : ℚ) / (total : ℚ)) * 100)

/-- CommandProcessor.handleExecute (lines 237-316) at a given task number:
find the active WorkItem, locate the Step by sequence number, gate on
dependencies unless force is set, execute the Step, then write back progress
computed from the task list that was read before the execution. -/
def handleExecute (w : World) (projectId : String) (taskNumber : Nat)
    (force : Bool) : World × CommandResult :=
  match dbGetActiveTodo w projectId with
  | none => (w, { success := false, message := "Nenhum TODO ativo encontrado",
                  error := some "Execute /continuar para retomar ou /criar para novo TODO" })
  | some activeTodo =>
    let tasks := dbListTasks w activeTodo.id
    match tasks.find? (fun t => t.sequence_number == taskNumber) with
    | none => (w, { success := false, message := "Task não encontrada" })
    | some targetTask =>
      let pendingDependencies : List Nat :=
        if !force && decide (targetTask.dependencies.length > 0) then
          checkTaskDependencies w targetTask
        else []
      if pendingDependencies.length > 0 then
        (w, { success := false
              message := "Task possui dependências pendentes"
              error := some ("Dependências: "
                ++ String.intercalate ", " (pendingDependencies.map toString)) })
      else
        let w1 := executeTask w targetTask
        let completedTasks :=
          (tasks.filter (fun t => t.status == TaskStatus.completed)).length
        let progressPercentage := progressRound completedTasks tasks.length
        let w2 := dbUpdateTodo w1 activeTodo.id (fun td =>
          { td with progress_percentage := progressPercentage
                    current_task_index := taskNumber })
        (w2, { success := true, message := "Task executada" })

/-- The field updates handleConfirm applies to the confirmed task. -/
def confirmTaskUpdate (now : Nat) (userId : String) (t : TaskRow) : TaskRow :=
  { t with status := TaskStatus.completed
           completed_at := some now
           confirmed_by := some userId
           confirmed_at := some now }

/-- The field updates handleConfirm applies to a fully completed WorkItem. -/
def completeTodoUpdate (now : Nat) (td : TodoRow) : TodoRow :=
  { td with status := TodoStatus.completed
            completed_at := some now
            progress_percentage := 100 }

/-- CommandProcessor.handleConfirm (lines 322-417): the task to confirm comes
from the active resumption context; it must be in_progress; it is marked
completed; only when no pending later task exists and every task of the
WorkItem is completed does the WorkItem get status completed and progress
100; finally a fresh context is saved through the ContextManager.  Display
strings are abbreviated. -/
def handleConfirm (w : World) (projectId : String) (userId : String)
    (notes : Option String) : World × CommandResult :=
  let r := cmGetActiveContext w projectId
  let w1 := r.1
  match r.2 with
  | none => (w1, { success := false, message := "Nenhuma task ativa para confirmar" })
  | some ctx =>
    match ctx.task_id with
    | none => (w1, { success := false, message := "Nenhuma task ativa para confirmar" })
    | some taskId =>
      match dbGetTask w1 taskId with
      | none => (w1, { success := false, message := "Task não encontrada" })
      | some task =>
        if !(task.status == TaskStatus.in_progress) then
          (w1, { success := false, message := "Task não está em execução" })
        else
          let w2 := dbUpdateTask w1 task.id (confirmTaskUpdate w1.clock userId)
          let todo := dbGetTodo w2 task.todo_id
          let nextTask := dbGetNextTask w2 task.todo_id task.sequence_number
          let step3 : World × String :=
            match nextTask with
            | some _ => (w2, "Próxima task")
            | none =>
              match todo with
              | none => (w2, "TODO concluído!")
              | some td =>
                let allTasks := dbListTasks w2 td.id
                let completedTasks :=
                  allTasks.filter (fun t => t.status == TaskStatus.completed)
                if completedTasks.length == allTasks.length then
                  (dbUpdateTodo w2 td.id (completeTodoUpdate w2.clock),
                   "TODO concluído com sucesso! 🎉")
                else (w2, "TODO concluído!")
          let w3 := step3.1
          let r4 := cmSaveContext w3
            { project_id := projectId
              todo_id := some task.todo_id
              task_id := nextTask.map (fun t => t.id)
              next_action := some step3.2
              notes := some (notes.getD "Task confirmada pelo usuário")
              stack_depth := none
              parent_context_id := none }
          (r4.1, { success := true, message := "Task confirmada com sucesso" })

/-- CommandProcessor.handleError (lines 423-523) restricted to the rows this
model tracks: the bug record insert and the evaluator analysis produce no
change to todos, tasks or contexts except that the current task, when
present, is marked failed with its error count incremented and last_error
set. -/
def handleError (w : World) (projectId : String) (description : String) :
    World × CommandResult :=
  let r := cmGetActiveContext w projectId
  let w1 := r.1
  let currentTask : Option TaskRow :=
    match r.2 with
    | some ctx =>
        match ctx.task_id with
        | some tid => dbGetTask w1 tid
        | none => none
    | none => none
  let w2 :=
    match currentTask with
    | some task => dbUpdateTask w1 task.id (fun t =>
        { t with status := TaskStatus.failed
                 error_count := t.error_count + 1
                 last_error := some description })
    | none => w1
  (w2, { success := true, message := "Erro reportado e analisado" })

-- =====================================================
-- CommandProcessor.generateTasksFromAnalysis (lines 715-801)
-- =====================================================

/-- AgentConsensus (src/types/index.ts): one optional text per evaluator. -/
structure AgentConsensus where
  architect : Option String := none
  developer : Option String := none
  dba : Option String := none
  qa : Option String := none
  business : Option String := none
  po : Option String := none
deriving Repr, DecidableEq

/-- The Insert shape Omit Task id, restricted to modelled fields. -/
structure TaskInsert where
  todo_id : String
  sequence_number : Nat
  title : String
  description : Option String
  owner_agent : AgentType
  status : TaskStatus
  dependencies : List Nat
  error_count : Nat
deriving Repr, DecidableEq

/-- Translation of CommandProcessor.generateTasksFromAnalysis: a planning
task with sequence 1 and no dependencies always; an implementation task with
sequence 2 depending on [1] when the consensus has a developer entry; a test
task with sequence 3 depending on [2] when the consensus has a qa entry. -/
def generateTasksFromAnalysis (todoId : String) (consensus : AgentConsensus) :
    List TaskInsert :=
  let planning : TaskInsert :=
    { todo_id := todoId
      sequence_number := 1
      title := "Análise detalhada e planejamento"
      description := some "Revisar análise multi-agente e definir abordagem técnica"
      owner_agent := AgentType.architect
      status := TaskStatus.pending
      dependencies := []
      error_count := 0 }
  let implTasks : List TaskInsert :=
    match consensus.developer with
    | some dev =>
        [{ todo_id := todoId
           sequence_number := 2
           title := "Implementação da solução"
           description := some dev
           owner_agent := AgentType.developer
           status := TaskStatus.pending
           dependencies := [1]
           error_count := 0 }]
    | none => []
  let testTasks : List TaskInsert :=
    match consensus.qa with
    | some qaText =>
        [{ todo_id := todoId
           sequence_number := 3
           title := "Testes e validação"
           description := some qaText
           owner_agent := AgentType.qa
           status := TaskStatus.pending
           dependencies := [2]
           error_count := 0 }]
    | none => []
  planning :: (implTasks ++ testTasks)

/-- Consecutive steps: each later step depends exactly on the sequence number
of the step immediately before it. -/
def chainDeps : List TaskInsert → Bool
  | [] => true
  | [_] => true
  | a :: b :: rest =>
      (b.dependencies == [a.sequence_number]) && chainDeps (b :: rest)

/-- Every dependency references an existing step of the list with a strictly
smaller sequence number. -/
def depsValid (steps : List TaskInsert) : Bool :=
  steps.all (fun s => s.dependencies.all (fun d =>
    steps.any (fun s2 => s2.sequence_number == d) && decide (d < s.sequence_number)))

/-- Modelled from the spec wording for claim C5: sequence numbers dense from
1 with no gaps; the first step has no dependencies; each later step depends
exactly on the immediately preceding sequence number; every dependency
references an existing step of the same WorkItem with a strictly smaller
sequence number. -/
def stepSequenceSpec (steps : List TaskInsert) : Bool :=
  (steps.map (fun s => s.sequence_number) == List.range' 1 steps.length)
    && (match steps with
        | [] => true
        | s :: _ => s.dependencies == [])
    && chainDeps steps
    && depsValid steps

-- =====================================================
-- Scenario stores used by the concrete evaluations
-- =====================================================

-- =====================================================
-- Context-stack scenarios
-- =====================================================

/-- The world after push(A) then push(B) on project P1, starting from a fresh
manager and empty store. -/
def pushPushWorld : World :=
  (cmPushContext (cmPushContext emptyWorld "P1" {}).1 "P1" {}).1

/-- The world after push, push, getContextHistory, push, pop on project P1:
the history call overwrites the cache in newest-first order, the third push
leaves a stale active snapshot of context 2 at the head of the cache, and pop
then reactivates the parent of that stale snapshot without deactivating the
truly active context 3. -/
def historyPopWorld : World :=
  (cmPopContext
    (cmPushContext (cmGetContextHistory pushPushWorld "P1" 10).1 "P1" {}).1
    "P1").1

/-- The consensus used to refute C5 as universally stated: a qa entry with no
developer entry. -/
def c5Consensus : AgentConsensus := { qa := some "Cobrir casos de teste" }

/-- The store used to refute C4: an older completed WorkItem TODO-A whose
single task got store id 1, and the active WorkItem TODO-B whose two tasks
got store ids 10 and 11; the second TODO-B step carries dependencies = [1],
the sequence number of its predecessor, exactly as
generateTasksFromAnalysis emits it. -/
def c4World : World :=
  { emptyWorld with
    todos := [
      { id := "TODO-A", project_id := "P1", status := TodoStatus.completed
        progress_percentage := 100, current_task_index := 1
        completed_at := some 0, created_at := 0 },
      { id := "TODO-B", project_id := "P1", status := TodoStatus.in_progress
        progress_percentage := 0, current_task_index := 0
        completed_at := none, created_at := 1 }]
    tasks := [
      { id := 1, todo_id := "TODO-A", sequence_number := 1
        title := "Análise detalhada e planejamento"
        owner_agent := AgentType.architect, status := TaskStatus.completed
        dependencies := [], error_count := 0, last_error := none
        started_at := some 0, completed_at := some 0
        confirmed_by := some "user", confirmed_at := some 0
        execution_time_seconds := some 1 },
      { id := 10, todo_id := "TODO-B", sequence_number := 1
        title := "Análise detalhada e planejamento"
        owner_agent := AgentType.architect, status := TaskStatus.pending
        dependencies := [], error_count := 0, last_error := none
        started_at := none, completed_at := none
        confirmed_by := none, confirmed_at := none
        execution_time_seconds := none },
      { id := 11, todo_id := "TODO-B", sequence_number := 2
        title := "Implementação da solução"
        owner_agent := AgentType.developer, status := TaskStatus.pending
        dependencies := [1], error_count := 0, last_error := none
        started_at := none, completed_at := none
        confirmed_by := none, confirmed_at := none
        execution_time_seconds := none }] }

-- =====================================================
-- Workflow progress (claim C3)
-- =====================================================

/-- A mid-flight WorkItem used to evaluate handleConfirm: TODO-1 has step 1
in progress (pointed to by the active context) and step 2 pending; the stored
progress is 0. -/
def c3World : World :=
  { emptyWorld with
    todos := [
      { id := "TODO-1", project_id := "P1", status := TodoStatus.in_progress
        progress_percentage := 0, current_task_index := 1
        completed_at := none, created_at := 0 }]
    tasks := [
      { id := 1, todo_id := "TODO-1", sequence_number := 1
        title := "Análise detalhada e planejamento"
        owner_agent := AgentType.architect, status := TaskStatus.in_progress
        dependencies := [], error_count := 0, last_error := none
        started_at := some 0, completed_at := none
        confirmed_by := none, confirmed_at := none
        execution_time_seconds := some 1 },
      { id := 2, todo_id := "TODO-1", sequence_number := 2
        title := "Implementação da solução"
        owner_agent := AgentType.developer, status := TaskStatus.pending
        dependencies := [1], error_count := 0, last_error := none
        started_at := none, completed_at := none
        confirmed_by := none, confirmed_at := none
        execution_time_seconds := none }]
    contexts := [
      { id := 1, project_id := "P1", todo_id := some "TODO-1", task_id := some 1
        next_action := some "Executar task 1", notes := none
        is_active := true, stack_depth := 0, parent_context_id := none
        saved_at := 0, resumed_at := none }]
    nextContextId := 2
    clock := 1 }

/-- The same WorkItem one step later: step 1 already completed, step 2 in
progress and pointed to by the active context; confirming step 2 completes
the WorkItem. -/
def c3DoneWorld : World :=
  { emptyWorld with
    todos := [
      { id := "TODO-1", project_id := "P1", status := TodoStatus.in_progress
        progress_percentage := 0, current_task_index := 2
        completed_at := none, created_at := 0 }]
    tasks := [
      { id := 1, todo_id := "TODO-1", sequence_number := 1
        title := "Análise detalhada e planejamento"
        owner_agent := AgentType.architect, status := TaskStatus.completed
        dependencies := [], error_count := 0, last_error := none
        started_at := some 0, completed_at := some 0
        confirmed_by := some "user", confirmed_at := some 0
        execution_time_seconds := some 1 },
      { id := 2, todo_id := "TODO-1", sequence_number := 2
        title := "Implementação da solução"
        owner_agent := AgentType.developer, status := TaskStatus.in_progress
        dependencies := [1], error_count := 0, last_error := none
        started_at := some 0, completed_at := none
        confirmed_by := none, confirmed_at := none
        execution_time_seconds := some 1 }]
    contexts := [
      { id := 1, project_id := "P1", todo_id := some "TODO-1", task_id := some 2
        next_action := some "Executar task 2", notes := none
        is_active := true, stack_depth := 0, parent_context_id := none
        saved_at := 0, resumed_at := none }]
    nextContextId := 2
    clock := 1 }

-- =====================================================
-- THEOREMS
-- =====================================================

-- Monotonicity of the 2-decimal rounding step.
theorem roundTo2_mono {x y : ℚ} (h : x ≤ y) : roundTo2 x ≤ roundTo2 y := by
  unfold roundTo2
  have hr : round (x * 100) ≤ round (y * 100) := by
    rw [round_eq, round_eq]
    exact Int.floor_mono (by linarith)
  have hr' : ((round (x * 100) : ℤ) : ℚ) ≤ ((round (y * 100) : ℤ) : ℚ) := by
    exact_mod_cast hr
  linarith

-- Bounds of the rounding step on the clamped interval.
theorem roundTo2_bounds {x : ℚ} (h1 : 1 / 10 ≤ x) (h2 : x ≤ 1) :
    1 / 10 ≤ roundTo2 x ∧ roundTo2 x ≤ 1 := by
  constructor
  · have : roundTo2 (1 / 10) ≤ roundTo2 x := roundTo2_mono h1
    have he : roundTo2 (1 / 10) = 1 / 10 := by
      unfold roundTo2
      norm_num [round_eq]
    linarith
  · have : roundTo2 x ≤ roundTo2 1 := roundTo2_mono h2
    have he : roundTo2 (1 : ℚ) = 1 := by
      unfold roundTo2
      norm_num [round_eq]
    linarith

/-- C7: for every integer factor tuple in the hypercube [1,5]^4,
calculateConfidence equals the spec formula (base, penalties, clamp to
[0.10, 1.00], round to 2 decimals) and its value lies in [0.10, 1.00]. -/
theorem c7_confidence_formula_and_bounds
    (c f r d : ℤ)
    (hc1 : 1 ≤ c) (hc5 : c ≤ 5) (hf1 : 1 ≤ f) (hf5 : f ≤ 5)
    (hr1 : 1 ≤ r) (hr5 : r ≤ 5) (hd1 : 1 ≤ d) (hd5 : d ≤ 5) :
    calculateConfidence (c : ℚ) (f : ℚ) (r : ℚ) (d : ℚ)
        = confidenceSpec (c : ℚ) (f : ℚ) (r : ℚ) (d : ℚ)
      ∧ 1 / 10 ≤ calculateConfidence (c : ℚ) (f : ℚ) (r : ℚ) (d : ℚ)
      ∧ calculateConfidence (c : ℚ) (f : ℚ) (r : ℚ) (d : ℚ) ≤ 1 := by
  have h1 : 1 / 10 ≤ max (1 / 10) (min 1
      ((((f : ℚ) + d) / 2) / 5 - ((c : ℚ) - 1) * (1 / 10) - ((r : ℚ) - 1) * (15 / 100))) :=
    le_max_left _ _
  have h2 : max (1 / 10) (min 1
      ((((f : ℚ) + d) / 2) / 5 - ((c : ℚ) - 1) * (1 / 10) - ((r : ℚ) - 1) * (15 / 100))) ≤ 1 :=
    max_le (by norm_num) (min_le_left _ _)
  have hb := roundTo2_bounds h1 h2
  exact ⟨rfl, by simpa [calculateConfidence] using hb.1, by simpa [calculateConfidence] using hb.2⟩

/-- Witness for C7 at the concrete tuple (3, 4, 2, 5). -/
theorem c7_confidence_formula_and_bounds_witness :
    calculateConfidence 3 4 2 5 = confidenceSpec 3 4 2 5
      ∧ 1 / 10 ≤ calculateConfidence 3 4 2 5 ∧ calculateConfidence 3 4 2 5 ≤ 1 := by
  have h := c7_confidence_formula_and_bounds 3 4 2 5
    (by norm_num) (by norm_num) (by norm_num) (by norm_num)
    (by norm_num) (by norm_num) (by norm_num) (by norm_num)
  exact_mod_cast h

-- The raw (pre-rounding) clamped confidence, used for the monotonicity claim.
theorem calculateConfidence_eq_roundTo2 (c f r d : ℚ) :
    calculateConfidence c f r d
      = roundTo2 (max (1 / 10) (min 1 (((f + d) / 2) / 5
          - (c - 1) * (1 / 10) - (r - 1) * (15 / 100)))) := rfl

theorem clamp_mono {a b : ℚ} (h : a ≤ b) :
    max (1 / 10) (min 1 a) ≤ max (1 / 10) (min 1 b) :=
  max_le_max le_rfl (min_le_min le_rfl h)

/-- C8: on the factor hypercube [1,5]^4, calculateConfidence is monotonically
non-increasing in complexity and riskLevel and monotonically non-decreasing in
familiarity and dataQuality, each holding the other three arguments fixed,
including after clamping and 2-decimal rounding. -/
theorem c8_confidence_monotone
    (c c2 f f2 r r2 d d2 : ℤ)
    (hc1 : 1 ≤ c) (hc5 : c2 ≤ 5) (hf1 : 1 ≤ f) (hf5 : f2 ≤ 5)
    (hr1 : 1 ≤ r) (hr5 : r2 ≤ 5) (hd1 : 1 ≤ d) (hd5 : d2 ≤ 5) :
    (c ≤ c2 → calculateConfidence (c2 : ℚ) (f : ℚ) (r : ℚ) (d : ℚ)
        ≤ calculateConfidence (c : ℚ) (f : ℚ) (r : ℚ) (d : ℚ))
      ∧ (r ≤ r2 → calculateConfidence (c : ℚ) (f : ℚ) (r2 : ℚ) (d : ℚ)
        ≤ calculateConfidence (c : ℚ) (f : ℚ) (r : ℚ) (d : ℚ))
      ∧ (f ≤ f2 → calculateConfidence (c : ℚ) (f : ℚ) (r : ℚ) (d : ℚ)
        ≤ calculateConfidence (c : ℚ) (f2 : ℚ) (r : ℚ) (d : ℚ))
      ∧ (d ≤ d2 → calculateConfidence (c : ℚ) (f : ℚ) (r : ℚ) (d : ℚ)
        ≤ calculateConfidence (c : ℚ) (f : ℚ) (r : ℚ) (d2 : ℚ)) := by
  refine ⟨?_, ?_, ?_, ?_⟩ <;> intro hle <;>
    rw [calculateConfidence_eq_roundTo2, calculateConfidence_eq_roundTo2] <;>
    apply roundTo2_mono <;> apply clamp_mono <;>
    have hle' : ((_ : ℤ) : ℚ) ≤ _ := Int.cast_le.mpr hle <;> linarith [hle']

/-- Witness for C8 at the concrete tuples c = 2 ≤ c2 = 4, r = 1 ≤ r2 = 3,
f = 2 ≤ f2 = 5, d = 1 ≤ d2 = 4. -/
theorem c8_confidence_monotone_witness :
    (calculateConfidence 4 2 1 1 ≤ calculateConfidence 2 2 1 1)
      ∧ (calculateConfidence 2 2 3 1 ≤ calculateConfidence 2 2 1 1)
      ∧ (calculateConfidence 2 2 1 1 ≤ calculateConfidence 2 5 1 1)
      ∧ (calculateConfidence 2 2 1 1 ≤ calculateConfidence 2 2 1 4) := by
  have h := c8_confidence_monotone 2 4 2 5 1 3 1 4
    (by norm_num) (by norm_num) (by norm_num) (by norm_num)
    (by norm_num) (by norm_num) (by norm_num) (by norm_num)
  refine ⟨?_, ?_, ?_, ?_⟩
  · have := h.1 (by norm_num); exact_mod_cast this
  · have := h.2.1 (by norm_num); exact_mod_cast this
  · have := h.2.2.1 (by norm_num); exact_mod_cast this
  · have := h.2.2.2 (by norm_num); exact_mod_cast this

-- Every value of AgentType is registered by initializeAgents.
theorem mem_orchestratorAgents (t : AgentType) : t ∈ orchestratorAgents := by
  cases t <;> simp [orchestratorAgents]

theorem specificAgents_responses_eq_map
    (analyze : AgentType → Except String AgentResponse) (ts : List AgentType) :
    (analyzeWithSpecificAgents analyze ts).responses = ts.map (runAgent analyze) := by
  induction ts with
  | nil => rfl
  | cons t ts ih =>
      simp only [analyzeWithSpecificAgents, List.filterMap_cons,
        mem_orchestratorAgents t, if_pos, List.map_cons]
      exact congrArg _ ih

/-- C2: the fan-out over N selected evaluators returns exactly N responses
for every failure pattern (in particular when up to N-1 analyze calls throw),
the full fan-out returns one response per registered evaluator (6), each
throwing evaluator is replaced by the fixed degraded response with confidence
exactly 0.1 and a manual-review suggestion, and no evaluator failure escapes:
both entry points are total functions into MultiAgentAnalysis. -/
theorem c2_fanout_failure_isolation
    (analyze : AgentType → Except String AgentResponse) (ts : List AgentType) :
    (analyzeWithSpecificAgents analyze ts).responses.length = ts.length
      ∧ (analyzeWithAllAgents analyze).responses.length = 6
      ∧ (analyzeWithSpecificAgents analyze ts).responses = ts.map (runAgent analyze)
      ∧ (∀ t e, analyze t = .error e →
          runAgent analyze t = degradedResponse t
            ∧ (runAgent analyze t).confidence = 1 / 10
            ∧ "Revisar manualmente" ∈ (runAgent analyze t).suggestions) := by
  refine ⟨?_, ?_, specificAgents_responses_eq_map analyze ts, ?_⟩
  · rw [specificAgents_responses_eq_map]
    exact List.length_map _ _
  · simp [analyzeWithAllAgents, orchestratorAgents]
  · intro t e he
    have hrun : runAgent analyze t = degradedResponse t := by
      simp [runAgent, he]
    exact ⟨hrun, by simp [hrun, degradedResponse], by simp [hrun, degradedResponse]⟩

/-- Witness for C2: five of the six evaluators succeed and qa throws; the
fan-out still yields 6 responses and the qa slot carries the degraded
response. -/
theorem c2_fanout_failure_isolation_witness :
    (analyzeWithSpecificAgents
        (fun t => match t with
          | .qa => .error "falha interna"
          | t => .ok { agent := t, response := "ok", confidence := 1 / 2, suggestions := [] })
        orchestratorAgents).responses.length = orchestratorAgents.length
      ∧ runAgent
          (fun t => match t with
            | .qa => .error "falha interna"
            | t => .ok { agent := t, response := "ok", confidence := 1 / 2, suggestions := [] })
          .qa = degradedResponse .qa := by
  refine ⟨(c2_fanout_failure_isolation _ orchestratorAgents).1, ?_⟩
  exact ((c2_fanout_failure_isolation
    (fun t => match t with
      | .qa => .error "falha interna"
      | t => .ok { agent := t, response := "ok", confidence := 1 / 2, suggestions := [] })
    orchestratorAgents).2.2.2 .qa "falha interna" rfl).1

-- Properties of first-occurrence de-duplication.
theorem dedupFirstAux_subset {x : String} :
    ∀ (l seen : List String), x ∈ dedupFirstAux seen l → x ∈ l := by
  intro l
  induction l with
  | nil => intro seen h; simp [dedupFirstAux] at h
  | cons a l ih =>
      intro seen h
      by_cases ha : a ∈ seen
      · simp [dedupFirstAux, ha] at h
        exact List.mem_cons_of_mem _ (ih _ h)
      · simp [dedupFirstAux, ha] at h
        rcases h with h | h
        · exact h ▸ List.mem_cons_self _ _
        · exact List.mem_cons_of_mem _ (ih _ h)

theorem dedupFirstAux_not_mem_seen {x : String} :
    ∀ (l seen : List String), x ∈ seen → x ∉ dedupFirstAux seen l := by
  intro l
  induction l with
  | nil => intro seen _; simp [dedupFirstAux]
  | cons a l ih =>
      intro seen hx
      by_cases ha : a ∈ seen
      · simp only [dedupFirstAux, if_pos ha]
        exact ih seen hx
      · simp only [dedupFirstAux, if_neg ha]
        intro hmem
        rcases List.mem_cons.mp hmem with h | h
        · exact ha (h ▸ hx)
        · exact ih (a :: seen) (List.mem_cons_of_mem _ hx) h

theorem dedupFirstAux_nodup : ∀ (l seen : List String), (dedupFirstAux seen l).Nodup := by
  intro l
  induction l with
  | nil => intro seen; simp [dedupFirstAux]
  | cons a l ih =>
      intro seen
      by_cases ha : a ∈ seen
      · simp only [dedupFirstAux, if_pos ha]; exact ih seen
      · simp only [dedupFirstAux, if_neg ha]
        exact List.nodup_cons.mpr
          ⟨dedupFirstAux_not_mem_seen l (a :: seen) (List.mem_cons_self _ _), ih _⟩

theorem dedupFirst_nodup (l : List String) : (dedupFirst l).Nodup :=
  dedupFirstAux_nodup l []

theorem dedupFirst_subset {x : String} {l : List String} (h : x ∈ dedupFirst l) : x ∈ l :=
  dedupFirstAux_subset l [] h

/-- C9: the recommendations list contains only suggestions contributed by some
response, has no duplicate strings under exact equality, splits as a block of
urgency-keyword suggestions followed by a block without them (the stable
partition produced by the priority sort), and never exceeds 10 entries. -/
theorem c9_recommendations_ranking (responses : List AgentResponse) :
    (generateRecommendations responses).length ≤ 10
      ∧ (generateRecommendations responses).Nodup
      ∧ (∀ s, s ∈ generateRecommendations responses →
          ∃ r, r ∈ responses ∧ s ∈ r.suggestions)
      ∧ (∃ l1 l2, generateRecommendations responses = l1 ++ l2
          ∧ (∀ s, s ∈ l1 → isUrgentSuggestion s = true)
          ∧ (∀ s, s ∈ l2 → isUrgentSuggestion s = false)) := by
  refine ⟨List.length_take_le _ _, ?_, ?_, ?_⟩
  · apply List.Nodup.sublist (List.take_sublist _ _)
    refine List.nodup_append.mpr ⟨?_, ?_, ?_⟩
    · exact (dedupFirst_nodup _).filter _
    · exact (dedupFirst_nodup _).filter _
    · intro x hx hx'
      have h1 := (List.mem_filter.mp hx).2
      have h2 := (List.mem_filter.mp hx').2
      simp [h1] at h2
  · intro s hs
    have hs' := List.mem_of_mem_take hs
    have hmem : s ∈ dedupFirst (responses.flatMap (fun r => r.suggestions)) := by
      rcases List.mem_append.mp hs' with h | h
      · exact (List.mem_filter.mp h).1
      · exact (List.mem_filter.mp h).1
    have := dedupFirst_subset hmem
    exact List.mem_flatMap.mp this
  · refine ⟨List.take 10 ((dedupFirst (responses.flatMap (fun r => r.suggestions))).filter
        (fun s => isUrgentSuggestion s)),
      List.take (10 - ((dedupFirst (responses.flatMap (fun r => r.suggestions))).filter
        (fun s => isUrgentSuggestion s)).length)
        ((dedupFirst (responses.flatMap (fun r => r.suggestions))).filter
        (fun s => !isUrgentSuggestion s)), ?_, ?_, ?_⟩
    · simpa [generateRecommendations] using List.take_append_eq_append_take
    · intro s hsm
      exact (List.mem_filter.mp (List.mem_of_mem_take hsm)).2
    · intro s hsm
      have := (List.mem_filter.mp (List.mem_of_mem_take hsm)).2
      simpa using this

/-- Witness for C9 on a concrete pair of responses with an overlapping
suggestion and one urgency-keyword suggestion. -/
theorem c9_recommendations_ranking_witness :
    (generateRecommendations
        [{ agent := .architect, response := "a", confidence := 1 / 2,
           suggestions := ["Validar impacto fiscal", "Criar backup"] },
         { agent := .qa, response := "b", confidence := 1 / 2,
           suggestions := ["Criar backup", "Testar cenários"] }]).length ≤ 10
      ∧ (∃ r, r ∈
          [{ agent := .architect, response := "a", confidence := 1 / 2,
             suggestions := ["Validar impacto fiscal", "Criar backup"] },
           { agent := .qa, response := "b", confidence := 1 / 2,
             suggestions := ["Criar backup", "Testar cenários"] }]
          ∧ "Testar cenários" ∈ AgentResponse.suggestions r) := by
  refine ⟨(c9_recommendations_ranking _).1, ?_⟩
  exact (c9_recommendations_ranking _).2.2.1 "Testar cenários" (by decide)

/-- C6 (code evaluated at the failing input): after push(A) then push(B) on a
fresh manager, pop() returns none and leaves the world unchanged, with B
(id 2) still the only active row, because getActiveContext serves the stale
cached snapshot of A, whose parent_context_id is none.  The claim expects pop
to deactivate B, reactivate A with resumed_at set, and return A. -/
theorem c6_push_push_pop_returns_none :
    (cmPopContext pushPushWorld "P1").2 = none
      ∧ (cmPopContext pushPushWorld "P1").1 = pushPushWorld
      ∧ (pushPushWorld.contexts.filter (fun c => c.is_active)).map (fun c => c.id) = [2]
      ∧ (cmPushContext emptyWorld "P1" {}).2.parent_context_id = none := by
  refine ⟨?_, ?_, ?_, ?_⟩ <;> decide

/-- C1 (code evaluated at the failing input): after the operation sequence
push, push, getContextHistory, push, pop on project P1, the store holds TWO
active rows (ids 1 and 3), refuting the at-most-one-active invariant; the
second conjunct records the half of the claim the code does satisfy: a push
immediately following another push leaves exactly the newest context
active. -/
theorem c1_two_active_contexts :
    ((historyPopWorld.contexts.filter (fun c => c.project_id == "P1" && c.is_active)).map
        (fun c => c.id) = [1, 3])
      ∧ ((pushPushWorld.contexts.filter (fun c => c.project_id == "P1" && c.is_active)).map
        (fun c => c.id) = [2]) := by
  refine ⟨?_, ?_⟩ <;> decide

/-- C10: for any two push payloads on a fresh manager, the first push's row
(id 1) is what getActiveContext returns after the second push, because
saveContext appended both rows to the cache without refreshing the stale
active snapshot of the first; yet the store itself holds only the second row
(id 2) as active. -/
theorem c10_cache_serves_stale_first_push
    (t1 t2 : Option String) (k1 k2 : Option Nat) (n1 n2 m1 m2 : Option String) :
    (cmGetActiveContext
        (cmPushContext (cmPushContext emptyWorld "P1"
            { todo_id := t1, task_id := k1, next_action := n1, notes := m1 }).1
          "P1" { todo_id := t2, task_id := k2, next_action := n2, notes := m2 }).1
        "P1").2
      = some (cmPushContext emptyWorld "P1"
          { todo_id := t1, task_id := k1, next_action := n1, notes := m1 }).2
      ∧ (cmPushContext emptyWorld "P1"
          { todo_id := t1, task_id := k1, next_action := n1, notes := m1 }).2.id = 1
      ∧ (cmPushContext (cmPushContext emptyWorld "P1"
            { todo_id := t1, task_id := k1, next_action := n1, notes := m1 }).1
          "P1" { todo_id := t2, task_id := k2, next_action := n2, notes := m2 }).2.id = 2
      ∧ ((cmPushContext (cmPushContext emptyWorld "P1"
            { todo_id := t1, task_id := k1, next_action := n1, notes := m1 }).1
          "P1" { todo_id := t2, task_id := k2, next_action := n2, notes := m2 }).1.contexts.filter
          (fun c => c.is_active)).map (fun c => c.id) = [2] := by
  exact ⟨rfl, rfl, rfl, rfl⟩

/-- C5 counterexample: with a consensus holding a qa entry but no developer
entry, the generated sequence numbers are [1, 3] (a gap at 2) and the test
step depends on [2], a sequence number held by no generated step, so the
claimed well-formedness fails. -/
theorem c5_counterexample_gap_and_dangling_dependency :
    stepSequenceSpec (generateTasksFromAnalysis "TODO-1" c5Consensus) = false
      ∧ (generateTasksFromAnalysis "TODO-1" c5Consensus).map (fun s => s.sequence_number)
          = [1, 3]
      ∧ (generateTasksFromAnalysis "TODO-1" c5Consensus).map (fun s => s.dependencies)
          = [[], [2]] := by
  exact ⟨rfl, rfl, rfl⟩

/-- C5 amended: whenever the consensus carries a qa entry only if it also
carries a developer entry (true of every consensus the full fan-out builds,
which keys one entry per registered evaluator), the generated Step sequence
is well formed exactly as claimed: a planning step with no dependencies
first, dense sequence numbers from 1, each later step depending exactly on
the immediately preceding sequence number, and all dependencies referencing
existing steps with strictly smaller sequence numbers. -/
theorem c5_step_generation_wellformed (todoId : String) (co : AgentConsensus)
    (h : co.qa.isSome → co.developer.isSome) :
    stepSequenceSpec (generateTasksFromAnalysis todoId co) = true := by
  cases hd : co.developer with
  | some dev =>
      cases hq : co.qa with
      | some q =>
          simp only [generateTasksFromAnalysis, hd, hq]
          rfl
      | none =>
          simp only [generateTasksFromAnalysis, hd, hq]
          rfl
  | none =>
      cases hq : co.qa with
      | some q =>
          rw [hd, hq] at h
          simp at h
      | none =>
          simp only [generateTasksFromAnalysis, hd, hq]
          rfl

/-- Witness for C5 at a consensus holding both a developer and a qa entry. -/
theorem c5_step_generation_wellformed_witness :
    stepSequenceSpec (generateTasksFromAnalysis "TODO-1"
      { developer := some "Implementar a solução", qa := some "Testar e validar" }) = true :=
  c5_step_generation_wellformed "TODO-1"
    { developer := some "Implementar a solução", qa := some "Testar e validar" }
    (fun _ => rfl)

/-- C4 (code evaluated at the failing input): starting step 2 of TODO-B
without force succeeds even though its dependency, the step with sequence
number 1 of the same WorkItem (store id 10), is still pending, because
checkTaskDependencies resolves the dependency entry 1 with
DatabaseService.getTask, finding the unrelated completed task whose store id
is 1 and which belongs to TODO-A.  The claim requires the start to fail and
to enumerate the unsatisfied sequence numbers of the same WorkItem. -/
theorem c4_dependency_gate_resolves_global_ids :
    (handleExecute c4World "P1" 2 false).2.success = true
      ∧ (dbGetTask (handleExecute c4World "P1" 2 false).1 11).map (fun t => t.status)
          = some TaskStatus.in_progress
      ∧ (dbGetTask c4World 10).map (fun t => t.status) = some TaskStatus.pending
      ∧ (dbGetTask (handleExecute c4World "P1" 2 false).1 10).map (fun t => t.status)
          = some TaskStatus.pending
      ∧ (dbGetTask c4World 1).map (fun t => t.todo_id) = some "TODO-A"
      ∧ (dbGetTask c4World 11).map (fun t => t.dependencies) = some [1] := by
  refine ⟨?_, ?_, ?_, ?_, ?_, ?_⟩ <;> decide

/-- C3 counterexample, refuting the claimed invariant on both mutating
operations it quantifies over.  Confirm half: confirming step 1 of a 2-step
WorkItem (step 2 still pending) succeeds, marks step 1 completed, yet leaves
the stored progress_percentage at 0 although round(100 * 1 / 2) = 50 over the
Steps after the change.  Execute half: re-executing step 1 of a WorkItem
whose step 1 alone was completed (handleExecute has no status guard on the
target) stores the round computed from the task list read before the change,
progressRound 1 2 = 50, although after the change no step is completed and
round(100 * 0 / 2) = 0, so the stored value disagrees with the current Step
statuses after handleExecute as well. -/
theorem c3_counterexample_progress_stale_after_confirm :
    (handleConfirm c3World "P1" "user" none).2.success = true
      ∧ ((dbListTasks (handleConfirm c3World "P1" "user" none).1 "TODO-1").filter
          (fun t => t.status == TaskStatus.completed)).length = 1
      ∧ (dbListTasks (handleConfirm c3World "P1" "user" none).1 "TODO-1").length = 2
      ∧ (dbGetTodo (handleConfirm c3World "P1" "user" none).1 "TODO-1").map
          (fun td => td.progress_percentage) = some 0
      ∧ progressRound 1 2 = 50
      ∧ (handleExecute c3DoneWorld "P1" 1 false).2.success = true
      ∧ (dbGetTodo (handleExecute c3DoneWorld "P1" 1 false).1 "TODO-1").map
          (fun td => td.progress_percentage) = some (progressRound 1 2)
      ∧ ((dbListTasks (handleExecute c3DoneWorld "P1" 1 false).1 "TODO-1").filter
          (fun t => t.status == TaskStatus.completed)).length = 0
      ∧ (dbListTasks (handleExecute c3DoneWorld "P1" 1 false).1 "TODO-1").length = 2
      ∧ progressRound 0 2 = 0
      ∧ (50 : Int) ≠ 0 := by
  refine ⟨by decide, by decide, by decide, by decide, ?_, by decide, rfl,
    by decide, by decide, ?_, by decide⟩
  · unfold progressRound
    norm_num
  · unfold progressRound
    norm_num

-- State-projection lemmas used by the amended progress theorem.
theorem dbUpdateTask_todos (w : World) (tid : Nat) (f : TaskRow → TaskRow) :
    (dbUpdateTask w tid f).todos = w.todos := rfl

theorem cmSaveContext_todos (w : World) (d : ContextData) :
    (cmSaveContext w d).1.todos = w.todos := rfl

theorem cmGetActiveContext_todos (w : World) (p : String) :
    (cmGetActiveContext w p).1.todos = w.todos := by
  unfold cmGetActiveContext
  split
  · rfl
  · split <;> rfl

theorem find_update_todoRow (l : List TodoRow) (id : String) (f : TodoRow → TodoRow)
    (hf : ∀ td, (f td).id = td.id) :
    (l.map (fun t => if t.id == id then f t else t)).find? (fun t => t.id == id)
      = (l.find? (fun t => t.id == id)).map f := by
  induction l with
  | nil => rfl
  | cons a l ih =>
      cases h : (a.id == id) with
      | true =>
          have hfa : ((f a).id == id) = true := by rw [hf a]; exact h
          rw [List.map_cons, if_pos h]
          simp only [List.find?, hfa, h]
          rfl
      | false =>
          have hne : ¬ ((a.id == id) = true) := by simp [h]
          rw [List.map_cons, if_neg hne]
          simp only [List.find?, h]
          exact ih

theorem dbGetTodo_dbUpdateTodo (w : World) (id : String) (f : TodoRow → TodoRow)
    (hf : ∀ td, (f td).id = td.id) :
    dbGetTodo (dbUpdateTodo w id f) id = (dbGetTodo w id).map f :=
  find_update_todoRow w.todos id f hf

/-- C3 amended: progress is recomputed only by handleExecute, and over the
task list read before the execution status change; handleConfirm leaves the
stored percentage untouched while a pending later step remains, and it
transitions the WorkItem to status completed with progress forced to 100 when
after the confirmation every step of the WorkItem is completed; handleError
leaves every WorkItem row (and so the percentage) unchanged.  The original
claim, that progress_percentage equals round(100 * completedSteps /
totalSteps) over the current Step statuses after every status change through
handleExecute, handleConfirm or handleError, fails on both mutating
operations (see the counterexample). -/
theorem c3_amended_progress_discipline :
    (∀ (w : World) (p : String) (tn : Nat) (force : Bool) (todo : TodoRow)
        (target : TaskRow),
        dbGetActiveTodo w p = some todo →
        (dbListTasks w todo.id).find? (fun t => t.sequence_number == tn) = some target →
        (force = true ∨ target.dependencies = [] ∨ checkTaskDependencies w target = []) →
        dbGetTodo (handleExecute w p tn force).1 todo.id
          = (dbGetTodo w todo.id).map (fun td =>
              { td with
                progress_percentage := progressRound
                  ((dbListTasks w todo.id).filter
                    (fun t => t.status == TaskStatus.completed)).length
                  (dbListTasks w todo.id).length
                current_task_index := tn }))
      ∧ (∀ (w : World) (p uid : String) (notes : Option String) (ctx : ContextRow)
          (tid : Nat) (task nt : TaskRow),
          (cmGetActiveContext w p).2 = some ctx →
          ctx.task_id = some tid →
          dbGetTask (cmGetActiveContext w p).1 tid = some task →
          task.status = TaskStatus.in_progress →
          dbGetNextTask
              (dbUpdateTask (cmGetActiveContext w p).1 task.id
                (confirmTaskUpdate (cmGetActiveContext w p).1.clock uid))
              task.todo_id task.sequence_number = some nt →
          (handleConfirm w p uid notes).1.todos = w.todos)
      ∧ (∀ (w : World) (p uid : String) (notes : Option String) (ctx : ContextRow)
          (tid : Nat) (task : TaskRow) (td : TodoRow),
          (cmGetActiveContext w p).2 = some ctx →
          ctx.task_id = some tid →
          dbGetTask (cmGetActiveContext w p).1 tid = some task →
          task.status = TaskStatus.in_progress →
          dbGetNextTask
              (dbUpdateTask (cmGetActiveContext w p).1 task.id
                (confirmTaskUpdate (cmGetActiveContext w p).1.clock uid))
              task.todo_id task.sequence_number = none →
          dbGetTodo
              (dbUpdateTask (cmGetActiveContext w p).1 task.id
                (confirmTaskUpdate (cmGetActiveContext w p).1.clock uid))
              task.todo_id = some td →
          ((dbListTasks
              (dbUpdateTask (cmGetActiveContext w p).1 task.id
                (confirmTaskUpdate (cmGetActiveContext w p).1.clock uid)) td.id).filter
            (fun t => t.status == TaskStatus.completed)).length
            = (dbListTasks
                (dbUpdateTask (cmGetActiveContext w p).1 task.id
                  (confirmTaskUpdate (cmGetActiveContext w p).1.clock uid)) td.id).length →
          (dbGetTodo (handleConfirm w p uid notes).1 td.id).map (fun x => x.status)
              = some TodoStatus.completed
            ∧ (dbGetTodo (handleConfirm w p uid notes).1 td.id).map
                (fun x => x.progress_percentage) = some 100)
      ∧ (∀ (w : World) (p description : String),
          (handleError w p description).1.todos = w.todos) := by
  refine ⟨?_, ?_, ?_, ?_⟩
  · intro w p tn force todo target hT hF hgate
    have hP : (if !force && decide (target.dependencies.length > 0)
        then checkTaskDependencies w target else []) = [] := by
      rcases hgate with h | h | h
      · simp [h]
      · simp [h]
      · split <;> simp [h]
    simp only [handleExecute, hT, hF, hP, List.length_nil, gt_iff_lt, Nat.lt_irrefl,
      if_false]
    exact dbGetTodo_dbUpdateTodo _ _ _ (fun td => rfl)
  · intro w p uid notes ctx tid task nt h1 h2 h3 h4 h5
    have h4' : (task.status == TaskStatus.in_progress) = true := by simp [h4]
    simp only [handleConfirm, h1, h2, h3, h4', h5, Bool.not_true, Bool.false_eq_true,
      if_false, cmSaveContext_todos, dbUpdateTask_todos, cmGetActiveContext_todos]
  · intro w p uid notes ctx tid task td h1 h2 h3 h4 h5 h6 h7
    have h4' : (task.status == TaskStatus.in_progress) = true := by simp [h4]
    have h7' : (((dbListTasks
        (dbUpdateTask (cmGetActiveContext w p).1 task.id
          (confirmTaskUpdate (cmGetActiveContext w p).1.clock uid)) td.id).filter
        (fun t => t.status == TaskStatus.completed)).length
        == (dbListTasks
            (dbUpdateTask (cmGetActiveContext w p).1 task.id
              (confirmTaskUpdate (cmGetActiveContext w p).1.clock uid)) td.id).length)
        = true := by
      rw [h7]
      simp
    have htd : td.id = task.todo_id := by
      have := List.find?_some h6
      simpa using this
    have hget : dbGetTodo
        (dbUpdateTask (cmGetActiveContext w p).1 task.id
          (confirmTaskUpdate (cmGetActiveContext w p).1.clock uid)) td.id = some td := by
      rw [htd]
      exact h6
    have hupd := dbGetTodo_dbUpdateTodo
      (dbUpdateTask (cmGetActiveContext w p).1 task.id
        (confirmTaskUpdate (cmGetActiveContext w p).1.clock uid)) td.id
      (completeTodoUpdate
        (dbUpdateTask (cmGetActiveContext w p).1 task.id
          (confirmTaskUpdate (cmGetActiveContext w p).1.clock uid)).clock)
      (fun x => rfl)
    simp only [handleConfirm, h1, h2, h3, h4', h5, h6, h7', Bool.not_true,
      Bool.false_eq_true, if_false, if_true]
    have h8 : dbGetTodo
        (dbUpdateTodo
          (dbUpdateTask (cmGetActiveContext w p).1 task.id
            (confirmTaskUpdate (cmGetActiveContext w p).1.clock uid)) td.id
          (completeTodoUpdate
            (dbUpdateTask (cmGetActiveContext w p).1 task.id
              (confirmTaskUpdate (cmGetActiveContext w p).1.clock uid)).clock)) td.id
        = some (completeTodoUpdate
            (dbUpdateTask (cmGetActiveContext w p).1 task.id
              (confirmTaskUpdate (cmGetActiveContext w p).1.clock uid)).clock td) := by
      rw [hupd, hget]
      rfl
    constructor
    · simp only [dbGetTodo, cmSaveContext_todos]
      simpa [dbGetTodo] using congrArg (Option.map (fun x => x.status)) h8
    · simp only [dbGetTodo, cmSaveContext_todos]
      simpa [dbGetTodo] using congrArg (Option.map (fun x => x.progress_percentage)) h8
  · intro w p description
    cases hctx : (cmGetActiveContext w p).2 with
    | none =>
        simp only [handleError, hctx]
        exact cmGetActiveContext_todos w p
    | some ctx =>
        cases htid : ctx.task_id with
        | none =>
            simp only [handleError, hctx, htid]
            exact cmGetActiveContext_todos w p
        | some tid =>
            cases htask : dbGetTask (cmGetActiveContext w p).1 tid with
            | none =>
                simp only [handleError, hctx, htid, htask]
                exact cmGetActiveContext_todos w p
            | some task =>
                simp only [handleError, hctx, htid, htask, dbUpdateTask_todos]
                exact cmGetActiveContext_todos w p

/-- Witness for the amended C3 theorem: the execute branch applied to c3World
at step 2 with force, the unchanged-progress branch applied to confirming
step 1 of c3World, and the completion branch applied to confirming the final
step of c3DoneWorld. -/
theorem c3_amended_progress_discipline_witness :
    (dbGetTodo (handleExecute c3World "P1" 2 true).1 "TODO-1"
        = (dbGetTodo c3World "TODO-1").map (fun td =>
            { td with
              progress_percentage := progressRound
                ((dbListTasks c3World "TODO-1").filter
                  (fun t => t.status == TaskStatus.completed)).length
                (dbListTasks c3World "TODO-1").length
              current_task_index := 2 }))
      ∧ (handleConfirm c3World "P1" "user" none).1.todos = c3World.todos
      ∧ (dbGetTodo (handleConfirm c3DoneWorld "P1" "user" none).1 "TODO-1").map
          (fun x => x.status) = some TodoStatus.completed
      ∧ (dbGetTodo (handleConfirm c3DoneWorld "P1" "user" none).1 "TODO-1").map
          (fun x => x.progress_percentage) = some 100
      ∧ (handleError c3World "P1" "erro de teste").1.todos = c3World.todos := by
  refine ⟨?_, ?_, ?_, ?_, ?_⟩
  · exact c3_amended_progress_discipline.1 c3World "P1" 2 true
      { id := "TODO-1", project_id := "P1", status := TodoStatus.in_progress
        progress_percentage := 0, current_task_index := 1
        completed_at := none, created_at := 0 }
      { id := 2, todo_id := "TODO-1", sequence_number := 2
        title := "Implementação da solução"
        owner_agent := AgentType.developer, status := TaskStatus.pending
        dependencies := [1], error_count := 0, last_error := none
        started_at := none, completed_at := none
        confirmed_by := none, confirmed_at := none
        execution_time_seconds := none }
      rfl rfl (Or.inl rfl)
  · exact c3_amended_progress_discipline.2.1 c3World "P1" "user" none
      { id := 1, project_id := "P1", todo_id := some "TODO-1", task_id := some 1
        next_action := some "Executar task 1", notes := none
        is_active := true, stack_depth := 0, parent_context_id := none
        saved_at := 0, resumed_at := none }
      1
      { id := 1, todo_id := "TODO-1", sequence_number := 1
        title := "Análise detalhada e planejamento"
        owner_agent := AgentType.architect, status := TaskStatus.in_progress
        dependencies := [], error_count := 0, last_error := none
        started_at := some 0, completed_at := none
        confirmed_by := none, confirmed_at := none
        execution_time_seconds := some 1 }
      { id := 2, todo_id := "TODO-1", sequence_number := 2
        title := "Implementação da solução"
        owner_agent := AgentType.developer, status := TaskStatus.pending
        dependencies := [1], error_count := 0, last_error := none
        started_at := none, completed_at := none
        confirmed_by := none, confirmed_at := none
        execution_time_seconds := none }
      rfl rfl rfl rfl rfl
  · exact (c3_amended_progress_discipline.2.2.1 c3DoneWorld "P1" "user" none
      { id := 1, project_id := "P1", todo_id := some "TODO-1", task_id := some 2
        next_action := some "Executar task 2", notes := none
        is_active := true, stack_depth := 0, parent_context_id := none
        saved_at := 0, resumed_at := none }
      2
      { id := 2, todo_id := "TODO-1", sequence_number := 2
        title := "Implementação da solução"
        owner_agent := AgentType.developer, status := TaskStatus.in_progress
        dependencies := [1], error_count := 0, last_error := none
        started_at := some 0, completed_at := none
        confirmed_by := none, confirmed_at := none
        execution_time_seconds := some 1 }
      { id := "TODO-1", project_id := "P1", status := TodoStatus.in_progress
        progress_percentage := 0, current_task_index := 2
        completed_at := none, created_at := 0 }
      rfl rfl rfl rfl rfl rfl rfl).1
  · exact (c3_amended_progress_discipline.2.2.1 c3DoneWorld "P1" "user" none
      { id := 1, project_id := "P1", todo_id := some "TODO-1", task_id := some 2
        next_action := some "Executar task 2", notes := none
        is_active := true, stack_depth := 0, parent_context_id := none
        saved_at := 0, resumed_at := none }
      2
      { id := 2, todo_id := "TODO-1", sequence_number := 2
        title := "Implementação da solução"
        owner_agent := AgentType.developer, status := TaskStatus.in_progress
        dependencies := [1], error_count := 0, last_error := none
        started_at := some 0, completed_at := none
        confirmed_by := none, confirmed_at := none
        execution_time_seconds := some 1 }
      { id := "TODO-1", project_id := "P1", status := TodoStatus.in_progress
        progress_percentage := 0, current_task_index := 2
        completed_at := none, created_at := 0 }
      rfl rfl rfl rfl rfl rfl rfl).2
  · exact c3_amended_progress_discipline.2.2.2 c3World "P1" "erro de teste"
